import Mathlib

/-
Verification of the Nodex VPN server protocol core
(src/vpn/NodexCrypto.ts, src/vpn/NodexProtocol.ts, src/vpn/NodexServer.ts,
src/types).

Shallow embedding conventions:
- Node Buffers are modelled as `List Nat` (byte values).
- The HMAC-SHA256 primitive of the node crypto library is an external
  collaborator; definitions are parameterized over it as a function
  `hmac : List Nat -> List Nat` (HMAC-SHA256 always returns 32 bytes,
  stated as a hypothesis where needed).
- Asynchronous socket reads are modelled by a byte stream `List Nat`:
  `readBytes n` succeeds when at least `n` bytes are available, and the
  stream ending early stands for the socket closing or the 30s receive
  timeout firing (both reject the pending receive in the source).
-/

namespace Nodex

/-! ## Protocol constants (NodexProtocol.ts) -/

def PROTOCOL_VERSION : Nat := 1       -- 0x01

def HEADER_SIZE : Nat := 16

def SIGNATURE_SIZE : Nat := 32

def MAX_PAYLOAD_SIZE : Nat := 65536

/-! ## Packet types (src/types, enum PacketType) -/

inductive PacketType
  | AUTH_REQUEST
  | AUTH_RESPONSE
  | TUNNEL_DATA
  | KEEP_ALIVE
  | DISCONNECT
  | ERROR
deriving DecidableEq

/-- Numeric value of the PacketType enum member, as written by
`header.writeUInt8(type, 1)`. -/
def PacketType.toByte : PacketType → Nat
  | .AUTH_REQUEST => 1
  | .AUTH_RESPONSE => 2
  | .TUNNEL_DATA => 3
  | .KEEP_ALIVE => 4
  | .DISCONNECT => 5
  | .ERROR => 6

/-! ## NodexCrypto: HMAC verification (NodexCrypto.ts, verifyHmac)

`verifyHmac` recomputes the HMAC and compares with
`crypto.timingSafeEqual`, which is byte equality on equal-length buffers
and throws on a length mismatch; the catch block turns the throw into
`false`, so the whole function is equality with the recomputed tag. -/

def verifyHmac (hmac : List Nat → List Nat) (data signature : List Nat) : Bool :=
  signature == hmac data

/-! ## Parsed packet (src/types, interface NodexPacket)

The TypeScript code stores the raw type byte read from the header
(`headerData.readUInt8(1)`), so `type` is a number here as well. -/

structure NodexPacket where
  version : Nat
  type : Nat
  timestamp : Nat
  length : Nat
  payload : List Nat
  signature : List Nat
deriving DecidableEq

/-- Big-endian 32-bit read at `off`, as `buffer.readUInt32BE(off)`. -/
def read32 (l : List Nat) (off : Nat) : Nat :=
  l.getD off 0 * 16777216 + l.getD (off + 1) 0 * 65536 +
    l.getD (off + 2) 0 * 256 + l.getD (off + 3) 0

/-- The 16-byte header built by `createPacket`:
Version(1) + Type(1) + Reserved(2) + Timestamp(4, BE) + Length(4, BE) +
Reserved(4). -/
def packetHeader (ts : Nat) (ty : PacketType) (len : Nat) : List Nat :=
  [PROTOCOL_VERSION, ty.toByte,
   0, 0,
   ts / 16777216 % 256, ts / 65536 % 256, ts / 256 % 256, ts % 256,
   len / 16777216 % 256, len / 65536 % 256, len / 256 % 256, len % 256,
   0, 0, 0, 0]

/-- `NodexProtocol.createPacket`: `[HEADER][PAYLOAD][SIGNATURE]` with
`signature = hmac(header ++ payload)`. `ts` is the `Date.now()/1000`
wall-clock value at send time. -/
def createPacket (hmac : List Nat → List Nat) (ts : Nat) (ty : PacketType)
    (payload : List Nat) : List Nat :=
  let header := packetHeader ts ty payload.length
  let signature := hmac (header ++ payload)
  header ++ payload ++ signature

/-- `NodexProtocol.readBytes`: accumulate exactly `count` bytes from the
stream; if the stream cannot supply them (socket close / error, or the
30s timeout in `receivePacket`), the pending receive fails. Returns the
bytes read and the remaining stream. -/
def readBytes (count : Nat) (stream : List Nat) : Option (List Nat × List Nat) :=
  if count ≤ stream.length then some (stream.take count, stream.drop count) else none

/-- Failure modes of `NodexProtocol.receivePacket`, one per rejection in
the source (the string is the message of the `Error` thrown there). -/
inductive RecvError
  | headerReadFailed     -- 'Error leyendo header' / timeout with no header
  | unsupportedVersion   -- 'Versión de protocolo incompatible'
  | payloadTooLarge      -- 'Payload demasiado grande'
  | payloadReadFailed    -- 'Error leyendo payload' / timeout mid-packet
  | invalidSignature     -- 'Firma de paquete inválida'
deriving DecidableEq

/-- The message of the `Error` the source rejects with, surfaced by the
`catch` in `performHandshake` as `error.message`. -/
def RecvError.message : RecvError → String
  | .headerReadFailed => "Error leyendo header"
  | .unsupportedVersion => "Versión de protocolo incompatible"
  | .payloadTooLarge => "Payload demasiado grande"
  | .payloadReadFailed => "Error leyendo payload"
  | .invalidSignature => "Firma de paquete inválida"

/-- `NodexProtocol.receivePacket`: read the 16-byte header, parse it,
reject on version mismatch or oversized declared length, read
`length + 32` further bytes, split into payload and signature, verify the
HMAC, and only then hand out the parsed packet (plus remaining stream). -/
def receivePacket (hmac : List Nat → List Nat) (stream : List Nat) :
    Except RecvError (NodexPacket × List Nat) :=
  match readBytes HEADER_SIZE stream with
  | none => .error .headerReadFailed
  | some (headerData, rest) =>
    let version := headerData.getD 0 0
    let type := headerData.getD 1 0
    let timestamp := read32 headerData 4
    let length := read32 headerData 8
    if version ≠ PROTOCOL_VERSION then .error .unsupportedVersion
    else if length > MAX_PAYLOAD_SIZE then .error .payloadTooLarge
    else
      match readBytes (length + SIGNATURE_SIZE) rest with
      | none => .error .payloadReadFailed
      | some (payloadAndSig, rest2) =>
        let payload := payloadAndSig.take length
        let signature := payloadAndSig.drop length
        if verifyHmac hmac (headerData ++ payload) signature then
          .ok (⟨version, type, timestamp, length, payload, signature⟩, rest2)
        else .error .invalidSignature

/-- A fixed stand-in MAC used to instantiate witnesses (any function of
the right output length satisfies the hypotheses of the theorems). -/
def hmacConst : List Nat → List Nat := fun _ => List.replicate 32 0

def hmacConst' : List Nat → List Nat := fun _ => List.replicate 32 1

/-! ## NodexCrypto: AES-256-GCM encrypt / decrypt (NodexCrypto.ts)

The node cipher objects are external collaborators. Under one fixed
master key, `cipher.update`/`cipher.final` over a plaintext is a
deterministic function `Egcm`, `decipher.update`/`decipher.final` over a
ciphertext is `Dgcm` (its inverse), and the authentication tag depends on
the associated data (the random `iv`, passed via `setAAD`) and the
ciphertext: `tagOf aad ct`, a 16-byte value (`tagLength = 16`).
`decipher.final` throws when the tag does not verify; the class rethrows,
so decryption yields no plaintext in that case. The fresh random
`crypto.randomBytes(ivLength)` value is modelled as the explicit `iv`
argument of `encrypt`. -/

def keyLength : Nat := 32

def ivLength : Nat := 16

def tagLength : Nat := 16

deriving instance DecidableEq for Except

inductive CryptoError
  | authenticationFailure  -- decipher.final() rejects: tag does not verify
  | malformedInput         -- named by the spec for too-short blobs
deriving DecidableEq

/-- `NodexCrypto.encrypt`: blob layout `[IV][TAG][ENCRYPTED_DATA]`. -/
def encrypt (Egcm : List Nat → List Nat) (tagOf : List Nat → List Nat → List Nat)
    (iv data : List Nat) : List Nat :=
  let encrypted := Egcm data
  let tag := tagOf iv encrypted
  iv ++ tag ++ encrypted

/-- `NodexCrypto.decrypt`: slice the blob as
`iv = blob[0,16)`, `tag = blob[16,32)`, `encrypted = blob[32,..)`
(`Buffer.slice` clamps, so a short blob just yields short slices — the
source has no explicit length check), then let the decipher verify the
tag before producing plaintext. -/
def decrypt (Dgcm : List Nat → List Nat) (tagOf : List Nat → List Nat → List Nat)
    (encryptedData : List Nat) : Except CryptoError (List Nat) :=
  let iv := encryptedData.take ivLength
  let tag := (encryptedData.drop ivLength).take tagLength
  let encrypted := encryptedData.drop (ivLength + tagLength)
  if tag = tagOf iv encrypted then .ok (Dgcm encrypted)
  else .error .authenticationFailure

def EgcmId : List Nat → List Nat := fun d => d

def DgcmId : List Nat → List Nat := fun d => d

def tagOfConst : List Nat → List Nat → List Nat := fun _ _ => List.replicate 16 0

/-! ## NodexProtocol: handshake (NodexProtocol.ts)

Handshake payloads are JSON strings (`JSON.stringify`, then
`Buffer.from(..., 'utf8')`). Outbound packets are modelled at the level
the claims observe them: which packet types with which payload text were
written to the socket. All payload text is ASCII, so the byte length of
the buffer equals the string length used in the size check. `now` stands
for the `Date.now()` wall-clock reading during the handshake. Write
failures of the socket are modelled by an oracle `sendErr`: `sendErr k`
is `some message` when the k-th `socket.write` of the run errors with
that message, `none` when it succeeds. -/

/-- Payload of `sendAuthResponse` (`JSON.stringify(responseData)`). -/
def authResponseJson (userId : String) : String :=
  "\x7b\"status\":\"success\",\"userId\":\"" ++ userId ++
    "\",\"serverConfig\":\x7b\"version\":\"1.0.0\",\"features\":[\"tunnel\",\"encryption\",\"compression\"]\x7d\x7d"

/-- Payload of `sendTunnelConfig` (`JSON.stringify(tunnelConfig)`). -/
def tunnelConfigJson : String :=
  "\x7b\"clientIp\":\"10.0.0.2\",\"serverIp\":\"10.0.0.1\",\"dns\":[\"8.8.8.8\",\"8.8.4.4\"],\"mtu\":1420,\"routes\":[\"0.0.0.0/0\"]\x7d"

/-- Payload of `sendErrorResponse` (`JSON.stringify(errorData)`). -/
def errorJson (message : String) (now : Nat) : String :=
  "\x7b\"error\":\"" ++ message ++ "\",\"timestamp\":" ++ toString now ++ "\x7d"

/-- UTF-8 bytes of the literal "test". -/
def testBytes : List Nat := [116, 101, 115, 116]

/-- UTF-8 bytes of the literal "dev". -/
def devBytes : List Nat := [100, 101, 118]

def listStartsWith : List Nat → List Nat → Bool
  | _, [] => true
  | [], _ :: _ => false
  | h :: t, n :: ns => h == n && listStartsWith t ns

/-- `String.prototype.includes` on the decoded token; the needles are
ASCII, so it is byte-sequence containment on the payload. -/
def containsSeq : List Nat → List Nat → Bool
  | [], needle => needle.isEmpty
  | h :: t, needle => listStartsWith (h :: t) needle || containsSeq t needle

/-- Interface HandshakeResult of NodexProtocol.ts. -/
structure HandshakeResult where
  success : Bool
  userId : String
  error : Option String
deriving DecidableEq

/-- `NodexProtocol.verifyAuthentication`: a token containing "test" or
"dev" is a development token; otherwise any non-empty token is accepted;
the empty token is rejected. `payload.toString('utf8')` is non-empty iff
the payload has bytes. -/
def verifyAuthentication (now : Nat) (payload : List Nat) : HandshakeResult :=
  if containsSeq payload testBytes || containsSeq payload devBytes then
    ⟨true, "dev-user-" ++ toString now, none⟩
  else if payload.length > 0 then
    ⟨true, "user-" ++ toString now, none⟩
  else
    ⟨false, "", some "Token inválido"⟩

/-- The spec's handshake phases (§4.3), labelling the sequential control
flow of `performHandshake`; FAILED labels every early return and caught
throw. -/
inductive HandshakeState
  | INIT
  | AWAIT_AUTH_REQUEST
  | AUTHENTICATING
  | AUTH_RESPONSE_SENT
  | AWAIT_CLIENT_ACK
  | TUNNEL_CONFIG_SENT
  | ESTABLISHED
  | FAILED
deriving DecidableEq

/-- A packet written to the stream socket: its type and payload text. -/
structure SentPacket where
  type : PacketType
  payload : String
deriving DecidableEq

/-- `NodexProtocol.sendPacket` for the k-th write of a run: reject
oversized payloads ('Payload demasiado grande'), then `socket.write`,
whose failure surfaces as the write error. -/
def sendPacket (sendErr : Nat → Option String) (k : Nat) (payload : String) :
    Except String Unit :=
  if payload.length > MAX_PAYLOAD_SIZE then .error "Payload demasiado grande"
  else
    match sendErr k with
    | some m => .error m
    | none => .ok ()

/-- All socket writes succeed. -/
def noSendFailure : Nat → Option String := fun _ => none

/-- Observable outcome of one `performHandshake` run: the returned
HandshakeResult, the packets written to the socket, and the spec-state
trace of the phases passed through. -/
structure HandshakeRun where
  result : HandshakeResult
  sent : List SentPacket
  trace : List HandshakeState
deriving DecidableEq

/-- `NodexProtocol.performHandshake`:
1. receive a packet, which must be AUTH_REQUEST;
2. `verifyAuthentication` on its payload — on rejection, best-effort send
   an ERROR packet ('Autenticación fallida') and return the rejection
   (a write failure there is caught by the outer catch, which returns
   `error.message` of the failed write instead);
3. send AUTH_RESPONSE;
4. receive a packet, which must be TUNNEL_DATA (the client ack);
5. send the TUNNEL_DATA tunnel configuration and report success.
A rejected receive or a failed write propagates to the outer catch,
which returns `success: false` with the thrown message. -/
def performHandshake (hmac : List Nat → List Nat) (sendErr : Nat → Option String)
    (now : Nat) (stream : List Nat) : HandshakeRun :=
  match receivePacket hmac stream with
  | .error e =>
    ⟨⟨false, "", some e.message⟩, [], [.INIT, .AWAIT_AUTH_REQUEST, .FAILED]⟩
  | .ok (authRequest, rest) =>
    if authRequest.type ≠ PacketType.AUTH_REQUEST.toByte then
      ⟨⟨false, "", some "Esperaba AUTH_REQUEST"⟩, [],
       [.INIT, .AWAIT_AUTH_REQUEST, .FAILED]⟩
    else
      let authResult := verifyAuthentication now authRequest.payload
      if authResult.success then
        match sendPacket sendErr 0 (authResponseJson authResult.userId) with
        | .error m =>
          ⟨⟨false, "", some m⟩, [], [.INIT, .AWAIT_AUTH_REQUEST, .AUTHENTICATING, .FAILED]⟩
        | .ok () =>
          match receivePacket hmac rest with
          | .error e =>
            ⟨⟨false, "", some e.message⟩,
             [⟨.AUTH_RESPONSE, authResponseJson authResult.userId⟩],
             [.INIT, .AWAIT_AUTH_REQUEST, .AUTHENTICATING, .AUTH_RESPONSE_SENT,
              .AWAIT_CLIENT_ACK, .FAILED]⟩
          | .ok (clientReady, _) =>
            if clientReady.type ≠ PacketType.TUNNEL_DATA.toByte then
              ⟨⟨false, "", some "Esperaba confirmación del cliente"⟩,
               [⟨.AUTH_RESPONSE, authResponseJson authResult.userId⟩],
               [.INIT, .AWAIT_AUTH_REQUEST, .AUTHENTICATING, .AUTH_RESPONSE_SENT,
                .AWAIT_CLIENT_ACK, .FAILED]⟩
            else
              match sendPacket sendErr 1 tunnelConfigJson with
              | .error m =>
                ⟨⟨false, "", some m⟩,
                 [⟨.AUTH_RESPONSE, authResponseJson authResult.userId⟩],
                 [.INIT, .AWAIT_AUTH_REQUEST, .AUTHENTICATING, .AUTH_RESPONSE_SENT,
                  .AWAIT_CLIENT_ACK, .FAILED]⟩
              | .ok () =>
                ⟨⟨true, authResult.userId, none⟩,
                 [⟨.AUTH_RESPONSE, authResponseJson authResult.userId⟩,
                  ⟨.TUNNEL_DATA, tunnelConfigJson⟩],
                 [.INIT, .AWAIT_AUTH_REQUEST, .AUTHENTICATING, .AUTH_RESPONSE_SENT,
                  .AWAIT_CLIENT_ACK, .TUNNEL_CONFIG_SENT, .ESTABLISHED]⟩
      else
        match sendPacket sendErr 0 (errorJson "Autenticación fallida" now) with
        | .error m =>
          ⟨⟨false, "", some m⟩, [], [.INIT, .AWAIT_AUTH_REQUEST, .AUTHENTICATING, .FAILED]⟩
        | .ok () =>
          ⟨authResult, [⟨.ERROR, errorJson "Autenticación fallida" now⟩],
           [.INIT, .AWAIT_AUTH_REQUEST, .AUTHENTICATING, .FAILED]⟩

/-! ## NodexServer (NodexServer.ts)

`activeConnections: Map<string, ConnectionState>` is modelled as an
insertion-ordered association list with the JS `Map.get` / `Map.set`
semantics. `clientId` is derived from the peer endpoint as
`address:port` for both the TCP accept path and the UDP receive path. -/

inductive ConnStatus
  | connecting
  | connected
  | disconnecting
  | disconnected
  | error
deriving DecidableEq

/-- Interface ConnectionState of src/types. -/
structure ConnectionState where
  clientId : String
  userId : String
  connected : Bool
  status : ConnStatus
  connectedAt : Nat
  lastActivity : Nat
  bytesReceived : Nat
  bytesSent : Nat
deriving DecidableEq

def clientIdOf (address : String) (port : Nat) : String :=
  address ++ ":" ++ toString port

/-- `Map.get`. -/
def mapGet {α : Type} : List (String × α) → String → Option α
  | [], _ => none
  | (k', v) :: t, k => if k' = k then some v else mapGet t k

/-- `Map.set`: overwrite in place when the key exists, append otherwise. -/
def mapSet {α : Type} : List (String × α) → String → α → List (String × α)
  | [], k, v => [(k, v)]
  | (k', v') :: t, k, v =>
    if k' = k then (k, v) :: t else (k', v') :: mapSet t k v

/-- Interface VpnConnectionEvent of src/types (`data.reason` carried on
disconnections). -/
inductive EventKind
  | connected
  | disconnected
  | error
deriving DecidableEq

structure VpnConnectionEvent where
  clientId : String
  userId : String
  event : EventKind
  timestamp : Nat
  reason : Option String
deriving DecidableEq

inductive TcpOutcome
  | capacityExceeded          -- rejected before any protocol interaction
  | handshakeFailed           -- handshake returned failure; socket closed
  | connectedOk (userId : String)
deriving DecidableEq

/-- Observable outcome of `handleTcpConnection`: the updated
`activeConnections` map, the emitted connection events, the packets
written to the peer, the handshake trace, whether a handshake run was
started at all, and the branch taken. -/
structure TcpResult where
  conns : List (String × ConnectionState)
  events : List VpnConnectionEvent
  sent : List SentPacket
  trace : List HandshakeState
  handshakeStarted : Bool
  outcome : TcpOutcome
deriving DecidableEq

/-- `NodexServer.handleTcpConnection`: reject immediately when
`activeConnections.size >= maxConnections` (socket ended, no protocol
bytes exchanged); otherwise run the handshake; on failure just close the
socket; on success insert the ConnectionState into the registry and emit
one 'connection' event. -/
def handleTcpConnection (hmac : List Nat → List Nat) (sendErr : Nat → Option String)
    (maxConnections : Nat) (conns : List (String × ConnectionState))
    (address : String) (port : Nat) (now : Nat) (stream : List Nat) : TcpResult :=
  let clientId := clientIdOf address port
  if conns.length ≥ maxConnections then
    ⟨conns, [], [], [], false, .capacityExceeded⟩
  else
    let run := performHandshake hmac sendErr now stream
    -- source tests the negation first: `if (!authResult.success)`
    if run.result.success then
      let connectionState : ConnectionState :=
        ⟨clientId, run.result.userId, true, .connected, now, now, 0, 0⟩
      ⟨mapSet conns clientId connectionState,
       [⟨clientId, run.result.userId, .connected, now, none⟩],
       run.sent, run.trace, true, .connectedOk run.result.userId⟩
    else
      ⟨conns, [], run.sent, run.trace, true, .handshakeFailed⟩

inductive UdpOutcome
  | droppedUnregistered    -- sender not in the registry: return early
  | droppedDecryptFailed   -- decrypt threw: caught and logged
  | delivered
deriving DecidableEq

/-- Observable outcome of `handleUdpMessage`: the updated registry, the
`processTunnelData` invocations (the payload sink), the console log
lines, and the branch taken. -/
structure UdpResult where
  conns : List (String × ConnectionState)
  tunnelOut : List (String × List Nat)
  logs : List String
  outcome : UdpOutcome
deriving DecidableEq

/-- `NodexServer.handleUdpMessage`: derive the clientId from the sender
address, look it up; drop unregistered senders; decrypt, and on a decrypt
throw just log (the catch swallows it); on success bump `bytesReceived`
by the datagram length, refresh `lastActivity`, and hand the decrypted
bytes to `processTunnelData`. -/
def handleUdpMessage (Dgcm : List Nat → List Nat)
    (tagOf : List Nat → List Nat → List Nat)
    (conns : List (String × ConnectionState)) (address : String) (port : Nat)
    (message : List Nat) (now : Nat) : UdpResult :=
  let clientId := clientIdOf address port
  match mapGet conns clientId with
  | none =>
    ⟨conns, [], ["Mensaje UDP de cliente no registrado: " ++ clientId],
     .droppedUnregistered⟩
  | some connection =>
    match decrypt Dgcm tagOf message with
    | .error _ =>
      ⟨conns, [], ["Error procesando mensaje UDP " ++ clientId], .droppedDecryptFailed⟩
    | .ok decryptedData =>
      let connection' := { connection with
        bytesReceived := connection.bytesReceived + message.length
        lastActivity := now }
      ⟨mapSet conns clientId connection', [(clientId, decryptedData)],
       ["Datos del túnel recibidos de " ++ clientId], .delivered⟩

def stDemo : ConnectionState :=
  ⟨"1.2.3.4:9", "user-1", true, .connected, 0, 0, 0, 0⟩

/-! ## Codec lemmas -/

theorem packetHeader_length (ts : Nat) (ty : PacketType) (len : Nat) :
    (packetHeader ts ty len).length = 16 := rfl

theorem read32_packetHeader_len (ts : Nat) (ty : PacketType) (len : Nat)
    (h : len ≤ MAX_PAYLOAD_SIZE) : read32 (packetHeader ts ty len) 8 = len := by
  have : read32 (packetHeader ts ty len) 8 =
      len / 16777216 % 256 * 16777216 + len / 65536 % 256 * 65536 +
        len / 256 % 256 * 256 + len % 256 := rfl
  rw [this]
  have hlt : len < 4294967296 := by
    unfold MAX_PAYLOAD_SIZE at h; omega
  omega

/-- Core codec inversion: a packet produced by `createPacket`, arriving at
the head of the byte stream, is parsed back by `receivePacket` with the
original type byte and payload, leaving the rest of the stream. -/
theorem receivePacket_createPacket (hmac : List Nat → List Nat)
    (hlen : ∀ d, (hmac d).length = 32) (ts : Nat) (ty : PacketType)
    (p rest : List Nat) (hp : p.length ≤ MAX_PAYLOAD_SIZE) :
    ∃ pkt : NodexPacket,
      receivePacket hmac (createPacket hmac ts ty p ++ rest) = .ok (pkt, rest) ∧
      pkt.type = ty.toByte ∧ pkt.payload = p := by
  set header := packetHeader ts ty p.length with hheader
  set sig := hmac (header ++ p) with hsig
  have hstream : createPacket hmac ts ty p ++ rest =
      header ++ (p ++ (sig ++ rest)) := by
    simp [createPacket, List.append_assoc]
  have hhl : header.length = HEADER_SIZE := packetHeader_length ts ty p.length
  have hsl : sig.length = 32 := hlen (header ++ p)
  refine ⟨⟨PROTOCOL_VERSION, ty.toByte, read32 header 4, p.length, p, sig⟩, ?_, rfl, rfl⟩
  have hlen16 : HEADER_SIZE ≤ (header ++ (p ++ (sig ++ rest))).length := by
    simp [List.length_append, hhl, HEADER_SIZE]
  have hv : header.getD 0 0 = PROTOCOL_VERSION := rfl
  have hty : header.getD 1 0 = ty.toByte := rfl
  have hl : read32 header 8 = p.length := read32_packetHeader_len ts ty p.length hp
  have htail : p ++ (sig ++ rest) = (p ++ sig) ++ rest := by
    simp [List.append_assoc]
  have hpsl : (p ++ sig).length = p.length + SIGNATURE_SIZE := by
    simp [List.length_append, hsl, SIGNATURE_SIZE]
  have hnotbig : ¬ p.length > MAX_PAYLOAD_SIZE := by omega
  have hver : verifyHmac hmac (header ++ p) sig = true := by
    simp [verifyHmac, hsig]
  have step1 : readBytes HEADER_SIZE (header ++ (p ++ (sig ++ rest))) =
      some (header, p ++ (sig ++ rest)) := by
    unfold readBytes
    rw [if_pos hlen16, List.take_left' hhl, List.drop_left' hhl]
  have step2 : readBytes (p.length + SIGNATURE_SIZE) (p ++ (sig ++ rest)) =
      some (p ++ sig, rest) := by
    unfold readBytes
    rw [htail, if_pos (by simp [List.length_append, hsl, SIGNATURE_SIZE]),
      List.take_left' hpsl, List.drop_left' hpsl]
  have step3 : (p ++ sig).take p.length = p := List.take_left' rfl
  have step4 : (p ++ sig).drop p.length = sig := List.drop_left' rfl
  rw [hstream]
  unfold receivePacket
  rw [step1]
  simp only [hv, hty, hl]
  rw [if_neg (by simp), if_neg hnotbig, step2]
  simp only [step3, step4, hver, if_true]

theorem getD_take (l : List Nat) (n i : Nat) (h : i < n) :
    (l.take n).getD i 0 = l.getD i 0 := by
  simp [List.getD_eq_getElem?_getD, List.getElem?_take, h]

/-- Any MAC function rejects a version-mismatched header the same way:
the version test in `receivePacket` fires before the signature is even
read off the stream. -/
theorem receivePacket_version_mismatch (hmac : List Nat → List Nat)
    (stream : List Nat) (h16 : HEADER_SIZE ≤ stream.length)
    (hv : stream.getD 0 0 ≠ PROTOCOL_VERSION) :
    receivePacket hmac stream = .error .unsupportedVersion := by
  have step : readBytes HEADER_SIZE stream =
      some (stream.take HEADER_SIZE, stream.drop HEADER_SIZE) := by
    unfold readBytes; rw [if_pos h16]
  have hv' : (stream.take HEADER_SIZE).getD 0 0 = stream.getD 0 0 :=
    getD_take stream HEADER_SIZE 0 (by unfold HEADER_SIZE; omega)
  simp only [receivePacket, step, hv']
  rw [if_pos hv]

theorem hmacConst_length : ∀ d, (hmacConst d).length = 32 :=
  fun _ => List.length_replicate 32 0

/-! ## Handshake and server lemmas -/

theorem receivePacket_createPacket_nil (hmac : List Nat → List Nat)
    (hlen : ∀ d, (hmac d).length = 32) (ts : Nat) (ty : PacketType)
    (p : List Nat) (hp : p.length ≤ MAX_PAYLOAD_SIZE) :
    ∃ pkt : NodexPacket,
      receivePacket hmac (createPacket hmac ts ty p) = .ok (pkt, []) ∧
      pkt.type = ty.toByte ∧ pkt.payload = p := by
  have h := receivePacket_createPacket hmac hlen ts ty p [] hp
  rwa [List.append_nil] at h

theorem mapSet_of_not_mem {α : Type} (m : List (String × α)) (k : String) (v : α)
    (h : mapGet m k = none) : mapSet m k v = m ++ [(k, v)] := by
  induction m with
  | nil => rfl
  | cons hd tl ih =>
    obtain ⟨k', v'⟩ := hd
    by_cases hk : k' = k
    · simp only [mapGet, if_pos hk] at h
      exact Option.noConfusion h
    · simp only [mapGet, if_neg hk] at h
      simp only [mapSet, if_neg hk, List.cons_append, ih h]

theorem verifyAuthentication_success (now : Nat) (cred : List Nat)
    (h : cred ≠ []) : (verifyAuthentication now cred).success = true := by
  unfold verifyAuthentication
  split
  · rfl
  · split
    · rfl
    · rename_i hlen0
      exact absurd (List.length_eq_zero.mp (by omega)) h

theorem verifyAuthentication_userId_length (now : Nat) (cred : List Nat)
    (hnow : (toString now).length ≤ 20) :
    ((verifyAuthentication now cred).userId).length ≤ 29 := by
  have h9 : ("dev-user-" : String).length = 9 := by decide
  have h5 : ("user-" : String).length = 5 := by decide
  unfold verifyAuthentication
  split
  · show (("dev-user-" : String) ++ toString now).length ≤ 29
    rw [String.length_append, h9]
    omega
  · split
    · show (("user-" : String) ++ toString now).length ≤ 29
      rw [String.length_append, h5]
      omega
    · show ("" : String).length ≤ 29
      decide

theorem authResponseJson_fits (userId : String) (h : userId.length ≤ 29) :
    ¬ (authResponseJson userId).length > MAX_PAYLOAD_SIZE := by
  simp only [authResponseJson, String.length_append]
  have h1 : ("\x7b\"status\":\"success\",\"userId\":\"" : String).length ≤ 40 := by decide
  have h2 : ("\",\"serverConfig\":\x7b\"version\":\"1.0.0\",\"features\":[\"tunnel\",\"encryption\",\"compression\"]\x7d\x7d" : String).length ≤ 100 := by decide
  unfold MAX_PAYLOAD_SIZE
  omega

theorem errorJson_auth_fits (now : Nat) (hnow : (toString now).length ≤ 20) :
    ¬ (errorJson "Autenticación fallida" now).length > MAX_PAYLOAD_SIZE := by
  simp only [errorJson, String.length_append]
  have h1 : ("\x7b\"error\":\"" : String).length ≤ 20 := by decide
  have h2 : ("Autenticación fallida" : String).length ≤ 30 := by decide
  have h3 : ("\",\"timestamp\":" : String).length ≤ 20 := by decide
  have h4 : ("\x7d" : String).length ≤ 2 := by decide
  unfold MAX_PAYLOAD_SIZE
  omega

theorem toByte_ne_authRequest (ty : PacketType) (h : ty ≠ .AUTH_REQUEST) :
    ty.toByte ≠ PacketType.AUTH_REQUEST.toByte := by
  cases ty
  · exact absurd rfl h
  all_goals decide

/-- The successful handshake run, isolated: the two protocol packets of
the peer drive `performHandshake` through every phase to ESTABLISHED,
with exactly the AUTH_RESPONSE and tunnel-config packets written back. -/
theorem performHandshake_happy (hmac : List Nat → List Nat)
    (hlen : ∀ d, (hmac d).length = 32) (now ts₁ ts₂ : Nat) (cred ack : List Nat)
    (hcred : cred ≠ []) (hcl : cred.length ≤ MAX_PAYLOAD_SIZE)
    (hack : ack.length ≤ MAX_PAYLOAD_SIZE) (hnow : (toString now).length ≤ 20) :
    performHandshake hmac noSendFailure now
        (createPacket hmac ts₁ .AUTH_REQUEST cred ++
          createPacket hmac ts₂ .TUNNEL_DATA ack) =
      ⟨⟨true, (verifyAuthentication now cred).userId, none⟩,
       [⟨.AUTH_RESPONSE, authResponseJson (verifyAuthentication now cred).userId⟩,
        ⟨.TUNNEL_DATA, tunnelConfigJson⟩],
       [.INIT, .AWAIT_AUTH_REQUEST, .AUTHENTICATING, .AUTH_RESPONSE_SENT,
        .AWAIT_CLIENT_ACK, .TUNNEL_CONFIG_SENT, .ESTABLISHED]⟩ := by
  obtain ⟨pkt1, heq1, hty1, hpl1⟩ :=
    receivePacket_createPacket hmac hlen ts₁ .AUTH_REQUEST cred
      (createPacket hmac ts₂ .TUNNEL_DATA ack) hcl
  obtain ⟨pkt2, heq2, hty2, hpl2⟩ :=
    receivePacket_createPacket_nil hmac hlen ts₂ .TUNNEL_DATA ack hack
  have hsucc : (verifyAuthentication now cred).success = true :=
    verifyAuthentication_success now cred hcred
  have huid : ((verifyAuthentication now cred).userId).length ≤ 29 :=
    verifyAuthentication_userId_length now cred hnow
  have hsend1 : sendPacket noSendFailure 0
      (authResponseJson (verifyAuthentication now cred).userId) = .ok () := by
    unfold sendPacket noSendFailure
    rw [if_neg (authResponseJson_fits _ huid)]
  have hsend2 : sendPacket noSendFailure 1 tunnelConfigJson = .ok () := by
    unfold sendPacket noSendFailure
    rw [if_neg (by decide)]
  simp only [performHandshake, heq1, hty1, hpl1, hsucc, hsend1, heq2, hty2, hpl2,
    hsend2, ne_eq, not_true_eq_false, if_false, ite_true, ite_false, if_true]

/-- C1: for every packet type and payload of length at most MAX_PAYLOAD
(65536), the bytes produced by `createPacket` are decoded by
`receivePacket` (same HMAC key) into a packet whose type byte and payload
equal the originals. -/
theorem packet_encode_decode_roundtrip (hmac : List Nat → List Nat)
    (hlen : ∀ d, (hmac d).length = 32) (ts : Nat) (ty : PacketType)
    (p : List Nat) (hp : p.length ≤ MAX_PAYLOAD_SIZE) :
    ∃ pkt : NodexPacket,
      receivePacket hmac (createPacket hmac ts ty p) = .ok (pkt, []) ∧
      pkt.type = ty.toByte ∧ pkt.payload = p := by
  have h := receivePacket_createPacket hmac hlen ts ty p [] hp
  rwa [List.append_nil] at h

theorem packet_encode_decode_roundtrip_witness :
    ∃ pkt : NodexPacket,
      receivePacket hmacConst (createPacket hmacConst 5 .AUTH_REQUEST [7, 8]) =
        .ok (pkt, []) ∧
      pkt.type = PacketType.AUTH_REQUEST.toByte ∧ pkt.payload = [7, 8] :=
  packet_encode_decode_roundtrip hmacConst hmacConst_length 5 .AUTH_REQUEST [7, 8]
    (by decide)

/-- C4: a byte sequence whose header version byte is not the fixed
protocol version (0x01) is rejected with UnsupportedVersion, and the
outcome does not depend on the MAC function at all (signature
verification is never reached), so a valid trailing signature changes
nothing. -/
theorem version_gate (hmac₁ hmac₂ : List Nat → List Nat) (stream : List Nat)
    (h16 : HEADER_SIZE ≤ stream.length)
    (hv : stream.getD 0 0 ≠ PROTOCOL_VERSION) :
    receivePacket hmac₁ stream = .error .unsupportedVersion ∧
    receivePacket hmac₁ stream = receivePacket hmac₂ stream := by
  have k₁ := receivePacket_version_mismatch hmac₁ stream h16 hv
  have k₂ := receivePacket_version_mismatch hmac₂ stream h16 hv
  exact ⟨k₁, k₁.trans k₂.symm⟩

theorem version_gate_witness :
    receivePacket hmacConst (2 :: List.replicate 60 0) = .error .unsupportedVersion ∧
    receivePacket hmacConst (2 :: List.replicate 60 0) =
      receivePacket hmacConst' (2 :: List.replicate 60 0) :=
  version_gate hmacConst hmacConst' (2 :: List.replicate 60 0) (by decide) (by decide)

/-- C2: under one key, decrypt inverts encrypt for every plaintext, and
two encryptions of the identical plaintext with distinct fresh nonces
give different blobs (the nonce is embedded at the front of the blob). -/
theorem encrypt_decrypt_roundtrip (Egcm Dgcm : List Nat → List Nat)
    (tagOf : List Nat → List Nat → List Nat)
    (hED : ∀ d, Dgcm (Egcm d) = d)
    (htag : ∀ a c, (tagOf a c).length = tagLength)
    (p iv₁ iv₂ : List Nat) (h₁ : iv₁.length = ivLength) (h₂ : iv₂.length = ivLength)
    (hne : iv₁ ≠ iv₂) :
    decrypt Dgcm tagOf (encrypt Egcm tagOf iv₁ p) = .ok p ∧
    encrypt Egcm tagOf iv₁ p ≠ encrypt Egcm tagOf iv₂ p := by
  constructor
  · unfold encrypt decrypt
    have hassoc : iv₁ ++ tagOf iv₁ (Egcm p) ++ Egcm p =
        iv₁ ++ (tagOf iv₁ (Egcm p) ++ Egcm p) := by
      simp [List.append_assoc]
    rw [hassoc, List.take_left' h₁, List.drop_left' h₁,
      List.take_left' (htag iv₁ (Egcm p))]
    have hassoc2 : iv₁ ++ (tagOf iv₁ (Egcm p) ++ Egcm p) =
        (iv₁ ++ tagOf iv₁ (Egcm p)) ++ Egcm p := by
      simp [List.append_assoc]
    have hlen2 : (iv₁ ++ tagOf iv₁ (Egcm p)).length = ivLength + tagLength := by
      simp [List.length_append, h₁, htag]
    rw [hassoc2, List.drop_left' hlen2, if_pos rfl, hED]
  · intro h
    have htake : (iv₁ ++ (tagOf iv₁ (Egcm p) ++ Egcm p)).take ivLength =
        (iv₂ ++ (tagOf iv₂ (Egcm p) ++ Egcm p)).take ivLength := by
      unfold encrypt at h
      simp only [List.append_assoc] at h
      rw [h]
    rw [List.take_left' h₁, List.take_left' h₂] at htake
    exact hne htake

theorem encrypt_decrypt_roundtrip_witness :
    decrypt DgcmId tagOfConst (encrypt EgcmId tagOfConst (List.replicate 16 0) [9, 9]) =
      .ok [9, 9] ∧
    encrypt EgcmId tagOfConst (List.replicate 16 0) [9, 9] ≠
      encrypt EgcmId tagOfConst (1 :: List.replicate 15 0) [9, 9] :=
  encrypt_decrypt_roundtrip EgcmId DgcmId tagOfConst (fun _ => rfl)
    (fun _ _ => List.length_replicate 16 0) [9, 9] (List.replicate 16 0)
    (1 :: List.replicate 15 0) (by decide) (by decide) (by decide)

/-- C3 (amended): every failure of `decrypt` is the single
authentication-failure rejection and yields no plaintext. In particular a
blob shorter than the minimum nonce-plus-tag length (32 bytes) leaves a
tag slice shorter than 16 bytes, which can never match the real 16-byte
tag, so it fails through the very same path: the source has no length
check and no distinct MalformedInput error. -/
theorem decrypt_failure_modes (Dgcm : List Nat → List Nat)
    (tagOf : List Nat → List Nat → List Nat)
    (htag : ∀ a c, (tagOf a c).length = tagLength) (blob : List Nat) :
    ((blob.drop ivLength).take tagLength ≠
        tagOf (blob.take ivLength) (blob.drop (ivLength + tagLength)) →
      decrypt Dgcm tagOf blob = .error .authenticationFailure) ∧
    (blob.length < ivLength + tagLength →
      decrypt Dgcm tagOf blob = .error .authenticationFailure) ∧
    (∀ e, decrypt Dgcm tagOf blob = .error e → e = .authenticationFailure) := by
  refine ⟨?_, ?_, ?_⟩
  · intro h
    simp only [decrypt]
    rw [if_neg h]
  · intro h
    have hlt : ((blob.drop ivLength).take tagLength).length < tagLength := by
      simp only [List.length_take, List.length_drop]
      unfold ivLength tagLength at h ⊢
      omega
    have hne : (blob.drop ivLength).take tagLength ≠
        tagOf (blob.take ivLength) (blob.drop (ivLength + tagLength)) := by
      intro heq
      rw [heq, htag] at hlt
      exact lt_irrefl _ hlt
    simp only [decrypt]
    rw [if_neg hne]
  · intro e he
    simp only [decrypt] at he
    by_cases hc : (blob.drop ivLength).take tagLength =
        tagOf (blob.take ivLength) (blob.drop (ivLength + tagLength))
    · rw [if_pos hc] at he
      exact Except.noConfusion he
    · rw [if_neg hc] at he
      injection he with h
      exact h.symm

theorem decrypt_failure_modes_witness :
    decrypt DgcmId tagOfConst (List.replicate 5 3) = .error .authenticationFailure :=
  (decrypt_failure_modes DgcmId tagOfConst
    (fun _ _ => List.length_replicate 16 0) (List.replicate 5 3)).2.1 (by decide)

/-- C3 counterexample: a 10-byte blob — shorter than the 32-byte minimum
nonce-plus-tag length — fails with the authentication-failure rejection,
not with a distinct MalformedInput error. -/
theorem decrypt_short_blob_counterexample :
    decrypt DgcmId tagOfConst (List.replicate 10 0) = .error .authenticationFailure ∧
    decrypt DgcmId tagOfConst (List.replicate 10 0) ≠ .error .malformedInput := by
  exact ⟨by decide, by decide⟩

/-- C5: a peer that sends AUTH_REQUEST with a successfully-resolving
credential and then the TUNNEL_DATA acknowledgement drives the handshake
through every phase to ESTABLISHED, and the server performs exactly one
registry insertion (the new entry is appended to the map) and emits
exactly one connected notification. -/
theorem handshake_happy_path (hmac : List Nat → List Nat)
    (hlen : ∀ d, (hmac d).length = 32) (maxConnections : Nat)
    (conns : List (String × ConnectionState)) (address : String) (port : Nat)
    (now ts₁ ts₂ : Nat) (cred ack : List Nat)
    (hcap : conns.length < maxConnections)
    (hnew : mapGet conns (clientIdOf address port) = none)
    (hcred : cred ≠ []) (hcl : cred.length ≤ MAX_PAYLOAD_SIZE)
    (hack : ack.length ≤ MAX_PAYLOAD_SIZE) (hnow : (toString now).length ≤ 20) :
    handleTcpConnection hmac noSendFailure maxConnections conns address port now
        (createPacket hmac ts₁ .AUTH_REQUEST cred ++
          createPacket hmac ts₂ .TUNNEL_DATA ack) =
      ⟨conns ++ [(clientIdOf address port,
          ⟨clientIdOf address port, (verifyAuthentication now cred).userId, true,
           .connected, now, now, 0, 0⟩)],
       [⟨clientIdOf address port, (verifyAuthentication now cred).userId,
         .connected, now, none⟩],
       [⟨.AUTH_RESPONSE, authResponseJson (verifyAuthentication now cred).userId⟩,
        ⟨.TUNNEL_DATA, tunnelConfigJson⟩],
       [.INIT, .AWAIT_AUTH_REQUEST, .AUTHENTICATING, .AUTH_RESPONSE_SENT,
        .AWAIT_CLIENT_ACK, .TUNNEL_CONFIG_SENT, .ESTABLISHED],
       true, .connectedOk (verifyAuthentication now cred).userId⟩ := by
  have hrun := performHandshake_happy hmac hlen now ts₁ ts₂ cred ack hcred hcl hack hnow
  unfold handleTcpConnection
  rw [if_neg (by omega)]
  simp only [hrun]
  rw [mapSet_of_not_mem conns _ _ hnew]
  rw [if_pos trivial]

theorem handshake_happy_path_witness :
    handleTcpConnection hmacConst noSendFailure 100 [] "9.9.9.9" 1 0
        (createPacket hmacConst 0 .AUTH_REQUEST [116] ++
          createPacket hmacConst 0 .TUNNEL_DATA []) =
      ⟨[] ++ [(clientIdOf "9.9.9.9" 1,
          ⟨clientIdOf "9.9.9.9" 1, (verifyAuthentication 0 [116]).userId, true,
           .connected, 0, 0, 0, 0⟩)],
       [⟨clientIdOf "9.9.9.9" 1, (verifyAuthentication 0 [116]).userId,
         .connected, 0, none⟩],
       [⟨.AUTH_RESPONSE, authResponseJson (verifyAuthentication 0 [116]).userId⟩,
        ⟨.TUNNEL_DATA, tunnelConfigJson⟩],
       [.INIT, .AWAIT_AUTH_REQUEST, .AUTHENTICATING, .AUTH_RESPONSE_SENT,
        .AWAIT_CLIENT_ACK, .TUNNEL_CONFIG_SENT, .ESTABLISHED],
       true, .connectedOk (verifyAuthentication 0 [116]).userId⟩ :=
  handshake_happy_path hmacConst hmacConst_length 100 [] "9.9.9.9" 1 0 0 0
    [116] [] (by decide) rfl (by decide) (by decide) (by decide) (by decide)

/-- C6: when the registry already holds at least the configured maximum,
the incoming connection is rejected with no registry change, no events,
no packets exchanged, and no handshake started. -/
theorem capacity_rejected (hmac : List Nat → List Nat) (sendErr : Nat → Option String)
    (maxConnections : Nat) (conns : List (String × ConnectionState))
    (address : String) (port : Nat) (now : Nat) (stream : List Nat)
    (h : conns.length ≥ maxConnections) :
    handleTcpConnection hmac sendErr maxConnections conns address port now stream =
      ⟨conns, [], [], [], false, .capacityExceeded⟩ := by
  unfold handleTcpConnection
  rw [if_pos h]

theorem capacity_rejected_witness :
    handleTcpConnection hmacConst noSendFailure 1 [("1.2.3.4:9", stDemo)]
        "5.6.7.8" 9 0 [] =
      ⟨[("1.2.3.4:9", stDemo)], [], [], [], false, .capacityExceeded⟩ :=
  capacity_rejected hmacConst noSendFailure 1 [("1.2.3.4:9", stDemo)]
    "5.6.7.8" 9 0 [] (by decide)

/-- C7 (amended): only an authentication rejection triggers an ERROR
packet before the stream is closed. A first packet of an unexpected type,
or a receive that never completes (timeout / closed socket), fails the
handshake with nothing written back. When the ERROR packet itself fails
to send, the write error is not swallowed: the catch-all returns the
write error message in place of the primary authentication error. -/
theorem handshake_error_reporting (hmac : List Nat → List Nat)
    (hlen : ∀ d, (hmac d).length = 32) (now : Nat)
    (hnow : (toString now).length ≤ 20) :
    (∀ sendErr ts ty p, p.length ≤ MAX_PAYLOAD_SIZE →
      ty ≠ PacketType.AUTH_REQUEST →
      performHandshake hmac sendErr now (createPacket hmac ts ty p) =
        ⟨⟨false, "", some "Esperaba AUTH_REQUEST"⟩, [],
         [.INIT, .AWAIT_AUTH_REQUEST, .FAILED]⟩) ∧
    (∀ sendErr : Nat → Option String, performHandshake hmac sendErr now [] =
        ⟨⟨false, "", some "Error leyendo header"⟩, [],
         [.INIT, .AWAIT_AUTH_REQUEST, .FAILED]⟩) ∧
    (∀ ts, performHandshake hmac noSendFailure now
        (createPacket hmac ts .AUTH_REQUEST []) =
        ⟨⟨false, "", some "Token inválido"⟩,
         [⟨.ERROR, errorJson "Autenticación fallida" now⟩],
         [.INIT, .AWAIT_AUTH_REQUEST, .AUTHENTICATING, .FAILED]⟩) ∧
    (∀ ts m, performHandshake hmac (fun _ => some m) now
        (createPacket hmac ts .AUTH_REQUEST []) =
        ⟨⟨false, "", some m⟩, [],
         [.INIT, .AWAIT_AUTH_REQUEST, .AUTHENTICATING, .FAILED]⟩) := by
  refine ⟨?_, ?_, ?_, ?_⟩
  · intro sendErr ts ty p hp hty
    obtain ⟨pkt, heq, htyb, hpl⟩ := receivePacket_createPacket_nil hmac hlen ts ty p hp
    have hne : ¬ pkt.type = PacketType.AUTH_REQUEST.toByte := by
      rw [htyb]
      exact toByte_ne_authRequest ty hty
    simp only [performHandshake, heq, ne_eq]
    rw [if_pos hne]
  · intro sendErr
    have h0 : receivePacket hmac ([] : List Nat) = .error .headerReadFailed := rfl
    simp only [performHandshake, h0]
    rfl
  · intro ts
    obtain ⟨pkt, heq, htyb, hpl⟩ :=
      receivePacket_createPacket_nil hmac hlen ts .AUTH_REQUEST [] (by decide)
    have hva : verifyAuthentication now ([] : List Nat) =
        ⟨false, "", some "Token inválido"⟩ := rfl
    have hsend : sendPacket noSendFailure 0 (errorJson "Autenticación fallida" now) =
        .ok () := by
      unfold sendPacket noSendFailure
      rw [if_neg (errorJson_auth_fits now hnow)]
    simp only [performHandshake, heq, htyb, hpl, hva, hsend, ne_eq,
      not_true_eq_false, if_false, ite_false, ite_true]
    rw [if_neg (by simp)]
  · intro ts m
    obtain ⟨pkt, heq, htyb, hpl⟩ :=
      receivePacket_createPacket_nil hmac hlen ts .AUTH_REQUEST [] (by decide)
    have hva : verifyAuthentication now ([] : List Nat) =
        ⟨false, "", some "Token inválido"⟩ := rfl
    have hsend : sendPacket (fun _ => some m) 0
        (errorJson "Autenticación fallida" now) = .error m := by
      unfold sendPacket
      rw [if_neg (errorJson_auth_fits now hnow)]
    simp only [performHandshake, heq, htyb, hpl, hva, hsend, ne_eq,
      not_true_eq_false, if_false, ite_false, ite_true]
    rw [if_neg (by simp)]

theorem handshake_error_reporting_witness :
    performHandshake hmacConst noSendFailure 3
        (createPacket hmacConst 1 .AUTH_REQUEST []) =
      ⟨⟨false, "", some "Token inválido"⟩,
       [⟨.ERROR, errorJson "Autenticación fallida" 3⟩],
       [.INIT, .AWAIT_AUTH_REQUEST, .AUTHENTICATING, .FAILED]⟩ :=
  (handshake_error_reporting hmacConst hmacConst_length 3 (by decide)).2.2.1 1

/-- C7 counterexample: a handshake that fails because the first packet is
of type KEEP_ALIVE instead of AUTH_REQUEST closes with NO packet written
back at all — no ERROR packet carries the reason to the peer. -/
theorem handshake_failure_without_error_packet :
    (performHandshake hmacConst noSendFailure 0
        (createPacket hmacConst 0 .KEEP_ALIVE [97])).result.success = false ∧
    (performHandshake hmacConst noSendFailure 0
        (createPacket hmacConst 0 .KEEP_ALIVE [97])).sent = [] := by
  exact ⟨by decide, by decide⟩

/-- C8: a datagram from a registered sender whose decryption fails is
dropped and logged; the registry — including that sender's
ConnectionState — is returned unchanged (so the session survives), and
the payload sink is not invoked. -/
theorem udp_decrypt_failure_dropped (Dgcm : List Nat → List Nat)
    (tagOf : List Nat → List Nat → List Nat)
    (conns : List (String × ConnectionState)) (address : String) (port : Nat)
    (message : List Nat) (now : Nat) (st : ConnectionState) (e : CryptoError)
    (hreg : mapGet conns (clientIdOf address port) = some st)
    (hdec : decrypt Dgcm tagOf message = .error e) :
    handleUdpMessage Dgcm tagOf conns address port message now =
      ⟨conns, [], ["Error procesando mensaje UDP " ++ clientIdOf address port],
       .droppedDecryptFailed⟩ := by
  simp only [handleUdpMessage, hreg, hdec]

theorem udp_decrypt_failure_dropped_witness :
    handleUdpMessage DgcmId tagOfConst [("1.2.3.4:9", stDemo)] "1.2.3.4" 9 [] 7 =
      ⟨[("1.2.3.4:9", stDemo)], [],
       ["Error procesando mensaje UDP " ++ clientIdOf "1.2.3.4" 9],
       .droppedDecryptFailed⟩ :=
  udp_decrypt_failure_dropped DgcmId tagOfConst [("1.2.3.4:9", stDemo)]
    "1.2.3.4" 9 [] 7 stDemo .authenticationFailure (by decide) (by decide)

/-- C9: a datagram whose sender endpoint has no registry entry is
dropped: the registry is returned unchanged and the payload sink is not
invoked — only the drop is logged. -/
theorem udp_unregistered_dropped (Dgcm : List Nat → List Nat)
    (tagOf : List Nat → List Nat → List Nat)
    (conns : List (String × ConnectionState)) (address : String) (port : Nat)
    (message : List Nat) (now : Nat)
    (h : mapGet conns (clientIdOf address port) = none) :
    handleUdpMessage Dgcm tagOf conns address port message now =
      ⟨conns, [], ["Mensaje UDP de cliente no registrado: " ++ clientIdOf address port],
       .droppedUnregistered⟩ := by
  simp only [handleUdpMessage, h]

theorem udp_unregistered_dropped_witness :
    handleUdpMessage DgcmId tagOfConst [("1.2.3.4:9", stDemo)] "5.6.7.8" 9 [3] 7 =
      ⟨[("1.2.3.4:9", stDemo)], [],
       ["Mensaje UDP de cliente no registrado: " ++ clientIdOf "5.6.7.8" 9],
       .droppedUnregistered⟩ :=
  udp_unregistered_dropped DgcmId tagOfConst [("1.2.3.4:9", stDemo)]
    "5.6.7.8" 9 [3] 7 (by decide)

end Nodex
